import Mathlib

/-!
Verification of the conversation turn state machine of the ai-voice-agent
repository: the reply classifier, the response generator's fallback logic
(`app/services/llm_service.py`), the turn engine (`handle_user_response` in
`app/services/conversation_service.py`), the TwiML markup renderers, and the
per-request construction of the service in `app/api/routes.py`.

Strings are modelled as `List Char`; Python's `str.lower`, `str.strip`,
`str.replace`, the `in` substring test, `str.find`/`str.rfind` and slicing are
embedded as explicit functions on character lists.
-/

namespace VoiceAgent

/-- The apostrophe character (U+0027), kept as a named constant. -/
def aposChar : Char := Char.ofNat 39

/-- The double-quote character (U+0022), kept as a named constant. -/
def quoteChar : Char := Char.ofNat 34

/-- The left curly brace character (U+007B). -/
def lbraceChar : Char := Char.ofNat 123

/-- The right curly brace character (U+007D). -/
def rbraceChar : Char := Char.ofNat 125

/-- Python `str.lower()`, character-wise. -/
def pyLower (s : List Char) : List Char := s.map Char.toLower

/-- Python `str.strip()`: remove leading and trailing whitespace. -/
def pyStrip (s : List Char) : List Char :=
  ((s.dropWhile Char.isWhitespace).reverse.dropWhile Char.isWhitespace).reverse

/-- `listStartsWith t p` decides whether `t` begins with `p`. -/
def listStartsWith : List Char → List Char → Bool
  | _, [] => true
  | [], _ :: _ => false
  | a :: as, b :: bs => a = b && listStartsWith as bs

/-- Python `pat in text` for strings: substring containment. -/
def hasSubstr (text pat : List Char) : Bool :=
  match text with
  | [] => pat.isEmpty
  | _ :: rest => listStartsWith text pat || hasSubstr rest pat

/-- Python `s.replace(c, r)` where the pattern is a single character. -/
def pyReplace (s : List Char) (c : Char) (r : List Char) : List Char :=
  match s with
  | [] => []
  | a :: rest => (if a = c then r else [a]) ++ pyReplace rest c r

/-- Python `s.find(c)` for a single character: first index, or `-1`. -/
def pyFindChar (s : List Char) (c : Char) : Int :=
  match s with
  | [] => -1
  | a :: rest =>
    if a = c then 0
    else
      let r := pyFindChar rest c
      if r = -1 then -1 else r + 1

/-- Python `s.rfind(c)` for a single character: last index, or `-1`. -/
def pyRFindChar (s : List Char) (c : Char) : Int :=
  match s with
  | [] => -1
  | a :: rest =>
    let r := pyRFindChar rest c
    if r = -1 then (if a = c then 0 else -1) else r + 1

/-- Python `s[a:b]` for `0 ≤ a`, `0 ≤ b`. -/
def pySlice (s : List Char) (a b : Int) : List Char :=
  (s.take b.toNat).drop a.toNat

/-- A Python value as it appears in the parsed-JSON dictionaries: strings,
booleans, integers, or `None`. -/
inductive PyVal where
  | str (s : List Char)
  | bool (b : Bool)
  | num (n : Int)
  | none_
deriving DecidableEq

/-- Python `==` restricted to the value shapes above (`True == 1`, etc.). -/
def pyEq : PyVal → PyVal → Bool
  | .str a, .str b => decide (a = b)
  | .bool a, .bool b => decide (a = b)
  | .num a, .num b => decide (a = b)
  | .bool a, .num b => decide ((if a then (1 : Int) else 0) = b)
  | .num a, .bool b => decide (a = (if b then (1 : Int) else 0))
  | .none_, .none_ => true
  | _, _ => false

/-- Python `str(x)` / f-string interpolation of a value. -/
def PyVal.fstr : PyVal → List Char
  | .str s => s
  | .bool b => if b then "True".data else "False".data
  | .num n => (Int.repr n).data
  | .none_ => "None".data

/-! ### Reply classifier (conversation_service.py lines 169-177) -/

/-- The `ending_keywords` list of `handle_user_response`. -/
def ending_keywords : List (List Char) :=
  ["bye".data, "goodbye".data, "thank you".data, "thanks".data, "see you".data,
   "talk to you later".data, "ttyl".data, "end".data, "stop".data, "no".data,
   "nothing".data, "nope".data, "that\x27s all".data, "all good".data,
   "no thanks".data, "i\x27m good".data]

/-- The `should_end_conversation` test of `handle_user_response`: any ending
keyword occurs in the lowercased, stripped utterance, or `turn_count >= 2` and
the normalized utterance is exactly `no`, `nope` or `nothing`. -/
def shouldEndConversation (speech_result : List Char) (turn_count : Nat) : Bool :=
  let user_message_lower := pyStrip (pyLower speech_result)
  ending_keywords.any (fun k => hasSubstr user_message_lower k) ||
    (decide (turn_count ≥ 2) &&
      ["no".data, "nope".data, "nothing".data].contains user_message_lower)

/-! ### Response generator (llm_service.py, generate_optimized_bot_response) -/

/-- One entry of a parsed JSON object, keyed by string. -/
abbrev PyDict := List (List Char × PyVal)

/-- Python `dict.get(key, default)`. -/
def pdictGet (d : PyDict) (k : List Char) (dflt : PyVal) : PyVal :=
  match d with
  | [] => dflt
  | (k', v) :: rest => if k' = k then v else pdictGet rest k dflt

/-- Outcome of the external model call `self.model.generate_content(prompt)`
followed by `response.text`: either an exception, or the returned text. -/
inductive ModelOutcome where
  | raises
  | returns (text : List Char)

/-- One conversation-history entry (`{"speaker": .., "message": .., "intent": ..}`). -/
structure HistMsg where
  speaker : List Char
  message : PyVal
  intent : Option PyVal
deriving DecidableEq

/-- The dictionary returned by `generate_optimized_bot_response`: the keys
`response`, `intent`, `confidence`, `should_continue` are always present. -/
structure BotResponseData where
  response : PyVal
  intent : PyVal
  confidence : PyVal
  should_continue : PyVal
deriving DecidableEq

/-- The generic line `"Thank you for sharing that with me."`. -/
def sharingLine : List Char := "Thank you for sharing that with me.".data

/-- The hard fallback returned from the outer `except` of
`generate_optimized_bot_response`. -/
def fallbackDecision : BotResponseData :=
  { response := .str "I understand. Thank you for sharing that with me.".data
    intent := .str "neutral".data
    confidence := .str "low".data
    should_continue := .bool false }

/-- The words of the `is_final_turn` test in `generate_optimized_bot_response`. -/
def finalWords : List (List Char) :=
  ["no".data, "nothing".data, "nope".data, "that\x27s all".data, "i\x27m good".data]

/-- `is_final_turn = turn_count >= 1 or any(word in user_message.lower() ...)`. -/
def is_final_turn (user_message : List Char) (turn_count : Nat) : Bool :=
  decide (turn_count ≥ 1) ||
    finalWords.any (fun w => hasSubstr (pyLower user_message) w)

/-- The JSON-extraction block of `generate_optimized_bot_response`: locate the
outermost braces, run `json.loads` (the `loads` parameter; `.error` models the
parse raising), and build the result dictionary with per-key defaults. `none`
means the fallback path is taken (no braces found, or the parse raised). -/
def parse_bot_json (loads : List Char → Except Unit PyDict)
    (response_text : List Char) (isFinal : Bool) : Option BotResponseData :=
  let json_start := pyFindChar response_text lbraceChar
  let json_end := pyRFindChar response_text rbraceChar + 1
  if json_start ≠ -1 ∧ json_end > json_start then
    match loads (pySlice response_text json_start json_end) with
    | .ok parsed =>
      some { response := pdictGet parsed "response".data (.str sharingLine)
             intent := pdictGet parsed "intent".data (.str "neutral".data)
             confidence := pdictGet parsed "confidence".data (.str "medium".data)
             should_continue := pdictGet parsed "should_continue".data (.bool (!isFinal)) }
    | .error _ => none
  else none

/-- `LLMService.generate_optimized_bot_response`, with the external model call
(`model`) and `json.loads` (`loads`) as explicit parameters. The conversation
type and history only shape the prompt sent to the model, so they do not affect
the returned dictionary. -/
def generate_optimized_bot_response (loads : List Char → Except Unit PyDict)
    (model : ModelOutcome) (_conversation_type user_message : List Char)
    (_conversation_history : List HistMsg) (turn_count : Nat) : BotResponseData :=
  match model with
  | .raises => fallbackDecision
  | .returns t =>
    let response_text := pyStrip t
    let isFinal := is_final_turn user_message turn_count
    match parse_bot_json loads response_text isFinal with
    | some r => r
    | none =>
      { response := .str (if response_text.length < 100 then response_text else sharingLine)
        intent := .str "neutral".data
        confidence := .str "medium".data
        should_continue := .bool (!isFinal) }

/-! ### Markup renderers (conversation_service.py lines 271-312) -/

/-- The chained `.replace` escaping applied to the message by all three TwiML
generators: `&`, `<`, `>`, `'`, `"` in that order. -/
def escapeXml (m : List Char) : List Char :=
  pyReplace (pyReplace (pyReplace (pyReplace (pyReplace m '&' "&amp;".data)
    '<' "&lt;".data) '>' "&gt;".data) aposChar "&apos;".data) quoteChar "&quot;".data

/-- The shared opening of every TwiML template, up to the escaped message. -/
def twimlHead : List Char :=
  "<?xml version=\"1.0\" encoding=\"UTF-8\"?>\n<Response>\n    <Say voice=\"Polly.Joanna\">".data

/-- The tail of the error template after the escaped message. -/
def errorTail : List Char := ". Goodbye!</Say>\n    <Hangup/>\n</Response>".data

/-- The tail of the hangup template after the escaped message. -/
def hangupTail : List Char := "</Say>\n    <Hangup/>\n</Response>".data

/-- The tail of the continue template after the escaped message, containing the
`<Gather>` element pointed at the call-response callback. -/
def continueTail (webhook_base_url : List Char) (call_log_id : Nat) : List Char :=
  "</Say>\n    <Gather timeout=\"8\" speechTimeout=\"2\" input=\"speech\" action=\"".data ++
    webhook_base_url ++ "/call-response/".data ++ (Nat.repr call_log_id).data ++
    "?ngrok-skip-browser-warning=true\" method=\"POST\">\n    </Gather>\n    <Say voice=\"Polly.Joanna\">Thank you for your time. Goodbye!</Say>\n    <Hangup/>\n</Response>".data

/-- `_generate_error_twiml`. -/
def generate_error_twiml (message : List Char) : List Char :=
  twimlHead ++ escapeXml message ++ errorTail

/-- `_generate_hangup_twiml`. -/
def generate_hangup_twiml (message : List Char) : List Char :=
  twimlHead ++ escapeXml message ++ hangupTail

/-- `_generate_continue_twiml` (reads `self.webhook_base_url`, here explicit). -/
def generate_continue_twiml (webhook_base_url message : List Char)
    (call_log_id : Nat) : List Char :=
  twimlHead ++ escapeXml message ++ continueTail webhook_base_url call_log_id

/-- The continue branch of `handle_user_response` passes the raw `response`
value into `_generate_continue_twiml`, whose `message.replace(...)` requires a
string: for a non-string value (reachable through `json.loads`) the call raises
AttributeError, and the boundary `except` of `handle_user_response` (lines
264-269) converts it into the fixed error document. -/
def continue_or_error_twiml (webhook_base_url : List Char) (bot_response : PyVal)
    (call_log_id : Nat) : List Char :=
  match bot_response with
  | .str s => generate_continue_twiml webhook_base_url s call_log_id
  | _ => generate_error_twiml "Sorry, I encountered an error".data

/-! ### Turn engine (conversation_service.py, handle_user_response) -/

/-- Call lifecycle status (`app/models/call_log.py`). -/
inductive CallStatus where
  | initiated
  | in_progress
  | completed
  | failed
  | no_answer
deriving DecidableEq

/-- One per-call conversation context, as stored in `active_conversations`.
The default context used for a missing session has no `call_log_id` key. -/
structure ConvContext where
  turn_count : Nat
  conversation_history : List HistMsg
  conversation_type : List Char
  call_log_id : Option Nat
deriving DecidableEq

/-- The default context substituted when no session is found for the key. -/
def defaultContext : ConvContext :=
  { turn_count := 0, conversation_history := [], conversation_type := "general".data,
    call_log_id := none }

/-- The `active_conversations` dictionary, keyed by call SID. -/
abbrev Store := List (List Char × ConvContext)

/-- Python dictionary lookup `d.get(k)`. -/
def dictLookup (d : Store) (k : List Char) : Option ConvContext :=
  match d with
  | [] => none
  | (k', v) :: rest => if k' = k then some v else dictLookup rest k

/-- Python dictionary assignment `d[k] = v` (replace, else append). -/
def dictInsert (d : Store) (k : List Char) (v : ConvContext) : Store :=
  match d with
  | [] => [(k, v)]
  | (k', v') :: rest => if k' = k then (k, v) :: rest else (k', v') :: dictInsert rest k v

/-- Python `if k in d: del d[k]`: remove every entry for the key. -/
def dictDelete (d : Store) (k : List Char) : Store :=
  d.filter (fun p => ¬ p.1 = k)

/-- One call to `call_log_service.add_conversation_message`. -/
structure LoggedMsg where
  speaker : List Char
  message : PyVal
  intent : Option PyVal
  confidence : Option PyVal
deriving DecidableEq

/-- The observable outcome of one `handle_user_response` invocation: the TwiML
returned, the resulting `active_conversations` store, the statuses written via
`update_call_status`, and the transcript rows written. -/
structure HandleResult where
  twiml : List Char
  active_conversations : Store
  status_updates : List CallStatus
  logged_messages : List LoggedMsg
deriving DecidableEq

/-- The fixed closing line of the keyword-termination branch. -/
def final_bot_line : List Char := "Thank you, have a good day!".data

/-- The generic closing sentence of the turn-limit branch. -/
def understoodLine : List Char :=
  "Understood. Thank you for your time. Have a great day!".data

/-- The thanks-and-goodbye text appended to the generated reply. -/
def timeSuffix : List Char := " Thank you for your time. Have a great day!".data

/-- The `ending_response` computation of the turn-limit branch (lines 247-250):
a generic sentence when the raw lowercased utterance contains `no` or
`nothing`, otherwise the generated reply followed by the fixed goodbye. -/
def ending_response_line (speech_result : List Char) (bot_response : PyVal) : List Char :=
  if hasSubstr (pyLower speech_result) "no".data ||
      hasSubstr (pyLower speech_result) "nothing".data then
    understoodLine
  else
    PyVal.fstr bot_response ++ timeSuffix

/-- The body of `handle_user_response` after the conversation context has been
fetched (or defaulted). `llm` is `llm_service.generate_optimized_bot_response`
as a black box taking (conversation_type, user message, history, turn count). -/
def processUtterance
    (llm : List Char → List Char → List HistMsg → Nat → BotResponseData)
    (webhook_base_url : List Char) (conversation_context : ConvContext)
    (active : Store) (call_log_id : Nat) (speech_result call_sid : List Char) :
    HandleResult :=
  let turn_count := conversation_context.turn_count
  let conversation_history := conversation_context.conversation_history
  let conversation_type := conversation_context.conversation_type
  let userLog : LoggedMsg := ⟨"user".data, .str speech_result, none, none⟩
  if shouldEndConversation speech_result turn_count then
    { twiml := generate_hangup_twiml final_bot_line
      active_conversations := dictDelete active call_sid
      status_updates := [CallStatus.completed]
      logged_messages := [userLog, ⟨"bot".data, .str final_bot_line, none, none⟩] }
  else
    let bot_response_data := llm conversation_type speech_result conversation_history turn_count
    let bot_response := bot_response_data.response
    let intent := bot_response_data.intent
    let confidence := bot_response_data.confidence
    let history1 := conversation_history ++
      [⟨"user".data, .str speech_result, some intent⟩, ⟨"bot".data, bot_response, none⟩]
    let turn_count1 := turn_count + 1
    let active1 := dictInsert active call_sid
      ⟨turn_count1, history1, conversation_type, some call_log_id⟩
    let should_end_by_turns := decide (turn_count1 ≥ 2) ||
      pyEq bot_response_data.should_continue (.bool false) ||
      pyEq bot_response_data.intent (.str "wants_to_end".data)
    if should_end_by_turns then
      { twiml := generate_hangup_twiml (ending_response_line speech_result bot_response)
        active_conversations := dictDelete active1 call_sid
        status_updates := [CallStatus.completed]
        logged_messages := [userLog, ⟨"bot".data, bot_response, some intent, some confidence⟩] }
    else
      { twiml := continue_or_error_twiml webhook_base_url bot_response call_log_id
        active_conversations := active1
        status_updates := []
        logged_messages := [userLog, ⟨"bot".data, bot_response, some intent, some confidence⟩] }

/-- `ConversationService.handle_user_response`: fetch the session for the call
SID with the literal default `{"turn_count": 0, "conversation_history": [],
"conversation_type": "general"}`, then process the utterance. -/
def handle_user_response
    (llm : List Char → List Char → List HistMsg → Nat → BotResponseData)
    (webhook_base_url : List Char) (active : Store) (call_log_id : Nat)
    (speech_result call_sid : List Char) : HandleResult :=
  processUtterance llm webhook_base_url
    ((dictLookup active call_sid).getD defaultContext)
    active call_log_id speech_result call_sid

/-- `ConversationService.__init__` sets `self.active_conversations = {}`. -/
def initialActiveConversations : Store := []

/-- The `/call-response/{call_log_id}` route handler: it constructs a fresh
`ConversationService(db)` (whose store is `initialActiveConversations`) and
immediately calls `handle_user_response` on it. -/
def route_handle_call_response
    (llm : List Char → List Char → List HistMsg → Nat → BotResponseData)
    (webhook_base_url : List Char) (call_log_id : Nat)
    (speech_result call_sid : List Char) : HandleResult :=
  handle_user_response llm webhook_base_url initialActiveConversations
    call_log_id speech_result call_sid

/-! ### Substring containment, characterized -/

/-- `listStartsWith t p` holds exactly when `p` is a prefix of `t`. -/
theorem listStartsWith_iff : ∀ (t p : List Char),
    listStartsWith t p = true ↔ ∃ r, t = p ++ r
  | t, [] => by simp [listStartsWith]
  | [], b :: bs => by simp [listStartsWith]
  | a :: as, b :: bs => by
    simp only [listStartsWith, Bool.and_eq_true, decide_eq_true_eq, List.cons_append,
      List.cons.injEq]
    constructor
    · rintro ⟨rfl, h⟩
      obtain ⟨r, rfl⟩ := (listStartsWith_iff as bs).mp h
      exact ⟨r, rfl, rfl⟩
    · rintro ⟨r, rfl, h⟩
      exact ⟨rfl, (listStartsWith_iff as bs).mpr ⟨r, h⟩⟩

/-- `hasSubstr t p` holds exactly when `p` occurs contiguously inside `t`. -/
theorem hasSubstr_iff : ∀ (t p : List Char),
    hasSubstr t p = true ↔ ∃ l r, t = l ++ p ++ r
  | [], p => by
    simp only [hasSubstr, List.isEmpty_iff]
    constructor
    · rintro rfl
      exact ⟨[], [], rfl⟩
    · rintro ⟨l, r, h⟩
      rcases List.append_eq_nil.mp h.symm with ⟨h1, h2⟩
      rcases List.append_eq_nil.mp (by simpa using h1) with ⟨-, h3⟩
      exact h3
  | a :: t', p => by
    rw [hasSubstr, Bool.or_eq_true, listStartsWith_iff, hasSubstr_iff t' p]
    constructor
    · rintro (⟨r, h⟩ | ⟨l, r, h⟩)
      · exact ⟨[], r, by simpa using h⟩
      · exact ⟨a :: l, r, by simp [h]⟩
    · rintro ⟨l, r, h⟩
      cases l with
      | nil => exact Or.inl ⟨r, by simpa using h⟩
      | cons a' l' =>
        rcases List.cons.injEq .. ▸ h with ⟨rfl, h2⟩
        exact Or.inr ⟨l', r, by simpa using h2⟩

/-! ### C1: the keyword termination check -/

/-- C1: for every utterance, the termination check normalizes the utterance by
lowercasing and stripping, and returns true whenever one of the sixteen fixed
phrases occurs as a substring of the normalized utterance; and when none
occurs and `turnCount < 2`, it returns false. -/
theorem C1_termination_classifier (speech_result : List Char) (turn_count : Nat) :
    ((∃ k ∈ ending_keywords, ∃ l r, pyStrip (pyLower speech_result) = l ++ k ++ r) →
      shouldEndConversation speech_result turn_count = true) ∧
    (turn_count < 2 →
      (∀ k ∈ ending_keywords, ¬ ∃ l r, pyStrip (pyLower speech_result) = l ++ k ++ r) →
      shouldEndConversation speech_result turn_count = false) := by
  constructor
  · rintro ⟨k, hk, l, r, h⟩
    have hs : hasSubstr (pyStrip (pyLower speech_result)) k = true :=
      (hasSubstr_iff _ _).mpr ⟨l, r, h⟩
    unfold shouldEndConversation
    simp only [Bool.or_eq_true, List.any_eq_true]
    exact Or.inl ⟨k, hk, hs⟩
  · intro hlt hnone
    unfold shouldEndConversation
    have hany : ending_keywords.any
        (fun k => hasSubstr (pyStrip (pyLower speech_result)) k) = false := by
      rw [List.any_eq_false]
      intro k hk
      intro habs
      exact hnone k hk ((hasSubstr_iff _ _).mp habs)
    have hdec : decide (turn_count ≥ 2) = false := by
      simp only [decide_eq_false_iff_not]
      omega
    simp [hany, hdec]

/-- C1 witness: the phrase `goodbye` occurs in the normalized form of
`"  Goodbye now "`, so the classifier terminates at turn 0. -/
theorem C1_termination_classifier_witness :
    shouldEndConversation "  Goodbye now ".data 0 = true :=
  (C1_termination_classifier "  Goodbye now ".data 0).1
    ⟨"goodbye".data, by decide, [], " now".data, by decide⟩

/-! ### C8: the exact-match rule is redundant -/

/-- Modelled from the spec: the substring-only termination check, with the
exact-match-after-two-turns rule removed. -/
def substringOnlyTermination (speech_result : List Char) : Bool :=
  ending_keywords.any (fun k => hasSubstr (pyStrip (pyLower speech_result)) k)

/-- C8: the exact-match forced rule never changes the classifier's decision:
the two-rule check equals the substring-only check at every utterance and
every turn count, because `no`, `nope` and `nothing` each contain a listed
phrase as a substring. -/
theorem C8_exact_rule_redundant (speech_result : List Char) (turn_count : Nat) :
    shouldEndConversation speech_result turn_count =
      substringOnlyTermination speech_result := by
  unfold shouldEndConversation substringOnlyTermination
  cases hany : ending_keywords.any
      (fun k => hasSubstr (pyStrip (pyLower speech_result)) k) with
  | true => simp [hany]
  | false =>
    simp only [hany, Bool.false_or]
    cases hc : ["no".data, "nope".data, "nothing".data].contains
        (pyStrip (pyLower speech_result)) with
    | false => simp [hc]
    | true =>
      exfalso
      have hmem : pyStrip (pyLower speech_result) = "no".data ∨
          pyStrip (pyLower speech_result) = "nope".data ∨
          pyStrip (pyLower speech_result) = "nothing".data := by
        simpa using hc
      have hfalse := List.any_eq_false.mp hany
      rcases hmem with h1 | h1 | h1
      · have := hfalse "no".data (by decide)
        rw [h1] at this
        exact absurd this (by decide)
      · have := hfalse "nope".data (by decide)
        rw [h1] at this
        exact absurd this (by decide)
      · have := hfalse "nothing".data (by decide)
        rw [h1] at this
        exact absurd this (by decide)

/-! ### C10: a fresh service (hence empty store) per request -/

/-- C10: a freshly constructed `ConversationService` has an empty
`active_conversations` store, and the `/call-response` route builds a new
service per request, so every utterance it processes sees no stored session
and runs with the default context: turn count 0, type `general`, empty
history. -/
theorem C10_fresh_store_per_request
    (llm : List Char → List Char → List HistMsg → Nat → BotResponseData)
    (webhook_base_url : List Char) (call_log_id : Nat)
    (speech_result call_sid : List Char) :
    initialActiveConversations = [] ∧
    route_handle_call_response llm webhook_base_url call_log_id speech_result call_sid =
      processUtterance llm webhook_base_url defaultContext initialActiveConversations
        call_log_id speech_result call_sid ∧
    defaultContext.turn_count = 0 ∧
    defaultContext.conversation_type = "general".data ∧
    defaultContext.conversation_history = [] :=
  ⟨rfl, rfl, rfl, rfl, rfl⟩

/-! ### C3: the generator's failure fallback -/

/-- C3 counterexample: when the model call succeeds but JSON parsing of the
reply raises (here `loads` fails on the extracted text), the generator does
not return the fixed fallback decision: the result carries confidence
`medium` (not `low`), refuting the claim that any failure of the model call
or of response processing yields exactly the fallback decision. -/
theorem C3_counterexample :
    (generate_optimized_bot_response (fun _ => Except.error ())
        (ModelOutcome.returns [lbraceChar, 'x', rbraceChar]) "general".data
        "hello".data [] 0).confidence = PyVal.str "medium".data ∧
    generate_optimized_bot_response (fun _ => Except.error ())
        (ModelOutcome.returns [lbraceChar, 'x', rbraceChar]) "general".data
        "hello".data [] 0 ≠ fallbackDecision := by
  decide

/-- C3 amended: when the underlying model call itself raises, the generator
returns exactly the fallback decision (response `"I understand. Thank you for
sharing that with me."`, intent `neutral`, confidence `low`, should_continue
`false`) and, being a total function, never propagates the exception. A
JSON-parse failure instead takes the softer unparsed-reply fallback. -/
theorem C3_model_failure_fallback (loads : List Char → Except Unit PyDict)
    (conversation_type user_message : List Char)
    (conversation_history : List HistMsg) (turn_count : Nat) :
    generate_optimized_bot_response loads ModelOutcome.raises conversation_type
      user_message conversation_history turn_count = fallbackDecision := rfl

/-! ### C6: the unparsed-reply fallback -/

set_option maxRecDepth 8000 in
/-- C6 counterexample: for a raw model reply of exactly 100 characters (which
does not exceed 100), the generator substitutes the generic line instead of
returning the raw text, refuting the claim that the generic line is used only
when the raw text exceeds 100 characters. -/
theorem C6_counterexample :
    (generate_optimized_bot_response (fun _ => Except.error ())
        (ModelOutcome.returns (List.replicate 100 'a')) "general".data
        "hi".data [] 0).response = PyVal.str sharingLine ∧
    (List.replicate 100 'a').length = 100 ∧
    PyVal.str sharingLine ≠ PyVal.str (List.replicate 100 'a') := by
  decide

/-- C6 amended: when the model's reply cannot be parsed as structured data,
the generator returns the raw (stripped) reply text as the response,
substituting the generic line exactly when the raw text is 100 characters or
longer, with intent `neutral`, confidence `medium`, and `should_continue`
equal to the negation of `isFinalTurn`, where `isFinalTurn = turnCount >= 1
or the lowercased utterance contains one of no/nothing/nope/that's
all/i'm good`. -/
theorem C6_parse_fallback (loads : List Char → Except Unit PyDict)
    (model_text conversation_type user_message : List Char)
    (conversation_history : List HistMsg) (turn_count : Nat)
    (h : parse_bot_json loads (pyStrip model_text)
        (is_final_turn user_message turn_count) = none) :
    generate_optimized_bot_response loads (ModelOutcome.returns model_text)
        conversation_type user_message conversation_history turn_count =
      { response := .str (if (pyStrip model_text).length < 100
                          then pyStrip model_text else sharingLine)
        intent := .str "neutral".data
        confidence := .str "medium".data
        should_continue := .bool (!(decide (turn_count ≥ 1) ||
          finalWords.any (fun w => hasSubstr (pyLower user_message) w))) } := by
  unfold is_final_turn at h
  simp only [generate_optimized_bot_response, is_final_turn, h]

/-- C6 witness: a plain-text model reply with no braces at turn 0 and a
non-final utterance yields the raw text with continuation allowed. -/
theorem C6_parse_fallback_witness :
    generate_optimized_bot_response (fun _ => Except.error ())
        (ModelOutcome.returns "Nice weather today.".data) "general".data
        "great".data [] 0 =
      { response := .str "Nice weather today.".data
        intent := .str "neutral".data
        confidence := .str "medium".data
        should_continue := .bool true } := by
  have := C6_parse_fallback (fun _ => Except.error ()) "Nice weather today.".data
    "general".data "great".data [] 0 (by decide)
  simpa using this

/-! ### Store lemmas -/

/-- After deleting a key, looking it up fails. -/
theorem dictLookup_dictDelete (d : Store) (k : List Char) :
    dictLookup (dictDelete d k) k = none := by
  induction d with
  | nil => rfl
  | cons p rest ih =>
    simp only [dictDelete, decide_not] at ih
    by_cases hp : p.1 = k
    · simp [dictDelete, List.filter_cons, decide_not, hp, ih]
    · simp [dictDelete, List.filter_cons, decide_not, hp, dictLookup, ih]

set_option maxRecDepth 8000 in
/-- The fixed error document equals a hangup document whose message carries
the appended apology suffix: the error shape is itself speak-then-hangup. -/
theorem error_twiml_is_hangup :
    generate_error_twiml "Sorry, I encountered an error".data =
      generate_hangup_twiml "Sorry, I encountered an error. Goodbye!".data := by
  decide

/-- The continue branch's document is always one of the provider shapes:
continue markup for a string reply, otherwise the error document, which is a
speak-then-hangup document. -/
theorem continue_or_error_shape (webhook_base_url : List Char) (v : PyVal)
    (call_log_id : Nat) :
    ∃ m, continue_or_error_twiml webhook_base_url v call_log_id =
        generate_hangup_twiml m ∨
      continue_or_error_twiml webhook_base_url v call_log_id =
        generate_continue_twiml webhook_base_url m call_log_id := by
  cases v with
  | str s => exact ⟨s, Or.inr rfl⟩
  | bool b =>
    exact ⟨"Sorry, I encountered an error. Goodbye!".data, Or.inl error_twiml_is_hangup⟩
  | num n =>
    exact ⟨"Sorry, I encountered an error. Goodbye!".data, Or.inl error_twiml_is_hangup⟩
  | none_ =>
    exact ⟨"Sorry, I encountered an error. Goodbye!".data, Or.inl error_twiml_is_hangup⟩

/-! ### C7: keyword termination is generator-independent -/

/-- C7: whenever the classifier marks the utterance as terminating for the
session's turn count, `handle_user_response` returns the hangup markup with
exactly the fixed closing line, records the call as completed, and its entire
result is identical for any two response generators, since the terminal
branch never invokes the generator. -/
theorem C7_terminal_generator_independent
    (llm1 llm2 : List Char → List Char → List HistMsg → Nat → BotResponseData)
    (webhook_base_url : List Char) (active : Store) (call_log_id : Nat)
    (speech_result call_sid : List Char)
    (h : shouldEndConversation speech_result
        ((dictLookup active call_sid).getD defaultContext).turn_count = true) :
    handle_user_response llm1 webhook_base_url active call_log_id speech_result call_sid =
      handle_user_response llm2 webhook_base_url active call_log_id speech_result call_sid ∧
    (handle_user_response llm1 webhook_base_url active call_log_id speech_result
        call_sid).twiml = generate_hangup_twiml final_bot_line ∧
    (handle_user_response llm1 webhook_base_url active call_log_id speech_result
        call_sid).status_updates = [CallStatus.completed] := by
  simp only [handle_user_response, processUtterance]
  simp [h]

/-- C7 witness: `"no thanks"` at turn 0 terminates, and two generators that
disagree everywhere produce the same result. -/
theorem C7_terminal_generator_independent_witness :
    handle_user_response
        (fun _ _ _ _ => ⟨.str "AAA".data, .str "interested".data, .str "high".data, .bool true⟩)
        "https://x".data [] 5 "no thanks".data "CA9".data =
      handle_user_response
        (fun _ _ _ _ => ⟨.str "BBB".data, .str "wants_to_end".data, .str "low".data, .bool false⟩)
        "https://x".data [] 5 "no thanks".data "CA9".data :=
  (C7_terminal_generator_independent _ _ "https://x".data [] 5 "no thanks".data
    "CA9".data (by decide)).1

/-! ### C2: the non-terminating turn step -/

set_option maxRecDepth 8000 in
/-- C2 counterexample: at `"Tell me more"` (turn 0) with a generator reply
whose `response` value is the number 42 and whose continue flag is true, the
program returns the fixed error document — `message.replace` raises
AttributeError inside the continue renderer and the boundary handler catches
it — not continue markup carrying the generated reply, refuting the claim's
unconditional continue-branch conclusion. -/
theorem C2_counterexample :
    (handle_user_response
        (fun _ _ _ _ => ⟨.num 42, .str "interested".data, .str "high".data, .bool true⟩)
        "https://x".data [] 7 "Tell me more".data "CA1".data).twiml =
      generate_error_twiml "Sorry, I encountered an error".data ∧
    (handle_user_response
        (fun _ _ _ _ => ⟨.num 42, .str "interested".data, .str "high".data, .bool true⟩)
        "https://x".data [] 7 "Tell me more".data "CA1".data).twiml ≠
      generate_continue_twiml "https://x".data (PyVal.fstr (PyVal.num 42)) 7 := by
  decide

/-- C2 amended: for a non-terminating utterance, the turn engine first
increments the turn count (the first such turn ends with count 1) and then
ends the call (hangup markup, session gone from the store, status completed)
exactly when the incremented count reaches 2, or the generator's continue
flag equals `False`, or its intent equals `wants_to_end`; otherwise it stores
the updated session and, when the generated reply is a string, returns
continue markup carrying it — a non-string reply makes the markup renderer
raise, which the boundary handler converts into the fixed error document,
the stored session being left in place. -/
theorem C2_turn_engine_step
    (llm : List Char → List Char → List HistMsg → Nat → BotResponseData)
    (webhook_base_url : List Char) (active : Store) (call_log_id : Nat)
    (speech_result call_sid : List Char) (ctx : ConvContext) (data : BotResponseData)
    (hctx : (dictLookup active call_sid).getD defaultContext = ctx)
    (hdata : llm ctx.conversation_type speech_result ctx.conversation_history
        ctx.turn_count = data)
    (h : shouldEndConversation speech_result ctx.turn_count = false) :
    ((decide (ctx.turn_count + 1 ≥ 2) || pyEq data.should_continue (.bool false) ||
        pyEq data.intent (.str "wants_to_end".data)) = true →
      (handle_user_response llm webhook_base_url active call_log_id speech_result
          call_sid).twiml =
        generate_hangup_twiml (ending_response_line speech_result data.response) ∧
      dictLookup (handle_user_response llm webhook_base_url active call_log_id
          speech_result call_sid).active_conversations call_sid = none ∧
      (handle_user_response llm webhook_base_url active call_log_id speech_result
          call_sid).status_updates = [CallStatus.completed]) ∧
    ((decide (ctx.turn_count + 1 ≥ 2) || pyEq data.should_continue (.bool false) ||
        pyEq data.intent (.str "wants_to_end".data)) = false →
      (handle_user_response llm webhook_base_url active call_log_id speech_result
          call_sid).active_conversations =
        dictInsert active call_sid
          ⟨ctx.turn_count + 1,
           ctx.conversation_history ++
             [⟨"user".data, .str speech_result, some data.intent⟩,
              ⟨"bot".data, data.response, none⟩],
           ctx.conversation_type, some call_log_id⟩ ∧
      (handle_user_response llm webhook_base_url active call_log_id speech_result
          call_sid).status_updates = [] ∧
      (∀ s, data.response = PyVal.str s →
        (handle_user_response llm webhook_base_url active call_log_id speech_result
            call_sid).twiml = generate_continue_twiml webhook_base_url s call_log_id) ∧
      ((∀ s, data.response ≠ PyVal.str s) →
        (handle_user_response llm webhook_base_url active call_log_id speech_result
            call_sid).twiml =
          generate_error_twiml "Sorry, I encountered an error".data)) := by
  simp only [handle_user_response, processUtterance]
  rw [hctx, hdata, h]
  constructor
  · intro hEnd
    rw [hEnd]
    simp only [Bool.false_eq_true, if_false, if_true]
    exact ⟨trivial, dictLookup_dictDelete _ _, trivial⟩
  · intro hEnd
    rw [hEnd]
    simp only [Bool.false_eq_true, if_false]
    refine ⟨trivial, trivial, ?_, ?_⟩
    · intro s hs
      rw [hs]
      rfl
    · intro hns
      cases hres : data.response with
      | str s => exact absurd hres (hns s)
      | bool b => rfl
      | num n => rfl
      | none_ => rfl

/-- C2 witness: `"Tell me more"` at turn 0 with a generator answering
`{continue: true, intent: "interested"}` yields the continue markup and a
stored session at turn count 1. -/
theorem C2_turn_engine_step_witness :
    (handle_user_response
        (fun _ _ _ _ => ⟨.str "Sure!".data, .str "interested".data, .str "high".data, .bool true⟩)
        "https://x".data [] 7 "Tell me more".data "CA1".data).twiml =
      generate_continue_twiml "https://x".data "Sure!".data 7 :=
  (((C2_turn_engine_step
      (fun _ _ _ _ => ⟨.str "Sure!".data, .str "interested".data, .str "high".data, .bool true⟩)
      "https://x".data [] 7 "Tell me more".data "CA1".data defaultContext
      ⟨.str "Sure!".data, .str "interested".data, .str "high".data, .bool true⟩
      rfl rfl (by decide)).2 (by decide)).2.2.1) "Sure!".data rfl

/-! ### C4: session destruction and safe re-entry -/

/-- C4: whenever a termination decision is reached (the call record is marked
completed), the session key is gone from the resulting store; an utterance for
a key absent from the store is processed exactly as with the default context
(type `general`, turn count 0, empty history); and every invocation returns
one of the normal markup documents, never failing. -/
theorem C4_session_destroyed_and_safe_reentry
    (llm : List Char → List Char → List HistMsg → Nat → BotResponseData)
    (webhook_base_url : List Char) (active : Store) (call_log_id : Nat)
    (speech_result call_sid : List Char) :
    (CallStatus.completed ∈ (handle_user_response llm webhook_base_url active
        call_log_id speech_result call_sid).status_updates →
      dictLookup (handle_user_response llm webhook_base_url active call_log_id
          speech_result call_sid).active_conversations call_sid = none) ∧
    (dictLookup active call_sid = none →
      handle_user_response llm webhook_base_url active call_log_id speech_result
          call_sid =
        processUtterance llm webhook_base_url defaultContext active call_log_id
          speech_result call_sid) ∧
    (∃ m, (handle_user_response llm webhook_base_url active call_log_id
          speech_result call_sid).twiml = generate_hangup_twiml m ∨
        (handle_user_response llm webhook_base_url active call_log_id
          speech_result call_sid).twiml =
          generate_continue_twiml webhook_base_url m call_log_id) := by
  refine ⟨?_, ?_, ?_⟩
  · simp only [handle_user_response, processUtterance]
    split
    · intro _
      exact dictLookup_dictDelete _ _
    · split
      · intro _
        exact dictLookup_dictDelete _ _
      · intro hmem
        simp at hmem
  · intro hnone
    unfold handle_user_response
    rw [hnone]
    rfl
  · simp only [handle_user_response, processUtterance]
    split
    · exact ⟨final_bot_line, Or.inl rfl⟩
    · split
      · exact ⟨ending_response_line _ _, Or.inl rfl⟩
      · exact continue_or_error_shape webhook_base_url _ call_log_id

/-- C4 witness: a stored session at key `CA2` is destroyed by the terminating
utterance `"bye"`, and the key no longer resolves afterwards. -/
theorem C4_session_destroyed_and_safe_reentry_witness :
    dictLookup (handle_user_response
        (fun _ _ _ _ => ⟨.str "ok".data, .str "neutral".data, .str "high".data, .bool true⟩)
        "https://x".data [("CA2".data, ⟨1, [], "survey".data, some 3⟩)] 3 "bye".data
        "CA2".data).active_conversations "CA2".data = none :=
  (C4_session_destroyed_and_safe_reentry
      (fun _ _ _ _ => ⟨.str "ok".data, .str "neutral".data, .str "high".data, .bool true⟩)
      "https://x".data [("CA2".data, ⟨1, [], "survey".data, some 3⟩)] 3 "bye".data
      "CA2".data).1 (by decide)

/-! ### C5: escaping, well-formedness and round-trip -/

/-- The per-character view of the chained `.replace` escaping. -/
def escChar (c : Char) : List Char :=
  if c = '&' then ['&', 'a', 'm', 'p', ';']
  else if c = '<' then ['&', 'l', 't', ';']
  else if c = '>' then ['&', 'g', 't', ';']
  else if c = aposChar then ['&', 'a', 'p', 'o', 's', ';']
  else if c = quoteChar then ['&', 'q', 'u', 'o', 't', ';']
  else [c]

/-- `pyReplace` distributes over list append. -/
theorem pyReplace_append (xs ys : List Char) (c : Char) (r : List Char) :
    pyReplace (xs ++ ys) c r = pyReplace xs c r ++ pyReplace ys c r := by
  induction xs with
  | nil => rfl
  | cons a xs ih =>
    simp only [List.cons_append, pyReplace, List.append_eq, ih, List.append_assoc]

/-- The four later replacement stages leave the first stage's output of a
single character untouched, and together they act as `escChar`. -/
theorem escape_stage_head (a : Char) :
    pyReplace (pyReplace (pyReplace (pyReplace
        (if a = '&' then "&amp;".data else [a]) '<' "&lt;".data) '>' "&gt;".data)
        aposChar "&apos;".data) quoteChar "&quot;".data = escChar a := by
  by_cases h1 : a = '&'
  · subst h1; decide
  · rw [if_neg h1]
    by_cases h2 : a = '<'
    · subst h2; decide
    · by_cases h3 : a = '>'
      · subst h3; decide
      · by_cases h4 : a = aposChar
        · subst h4; decide
        · by_cases h5 : a = quoteChar
          · subst h5; decide
          · simp [pyReplace, escChar, h1, h2, h3, h4, h5]

/-- `escapeXml` on an empty message. -/
theorem escapeXml_nil : escapeXml [] = [] := rfl

/-- `escapeXml` processes the message character by character. -/
theorem escapeXml_cons (a : Char) (m : List Char) :
    escapeXml (a :: m) = escChar a ++ escapeXml m := by
  unfold escapeXml
  rw [show pyReplace (a :: m) '&' "&amp;".data
      = (if a = '&' then "&amp;".data else [a]) ++ pyReplace m '&' "&amp;".data from rfl]
  rw [pyReplace_append, pyReplace_append, pyReplace_append, pyReplace_append,
    escape_stage_head]

/-- No raw `<`, `>`, `'` or `"` survives per-character escaping. -/
theorem escChar_no_raw_specials (a : Char) :
    ∀ c ∈ escChar a, c ≠ '<' ∧ c ≠ '>' ∧ c ≠ aposChar ∧ c ≠ quoteChar := by
  intro c hc
  unfold escChar at hc
  by_cases h1 : a = '&'
  · rw [if_pos h1] at hc
    fin_cases hc <;> decide
  · rw [if_neg h1] at hc
    by_cases h2 : a = '<'
    · rw [if_pos h2] at hc
      fin_cases hc <;> decide
    · rw [if_neg h2] at hc
      by_cases h3 : a = '>'
      · rw [if_pos h3] at hc
        fin_cases hc <;> decide
      · rw [if_neg h3] at hc
        by_cases h4 : a = aposChar
        · rw [if_pos h4] at hc
          fin_cases hc <;> decide
        · rw [if_neg h4] at hc
          by_cases h5 : a = quoteChar
          · rw [if_pos h5] at hc
            fin_cases hc <;> decide
          · rw [if_neg h5] at hc
            rw [List.mem_singleton] at hc
            subst hc
            exact ⟨h2, h3, h4, h5⟩

/-- No raw `<`, `>`, `'` or `"` survives `escapeXml`. -/
theorem escapeXml_no_raw_specials (m : List Char) :
    ∀ c ∈ escapeXml m, c ≠ '<' ∧ c ≠ '>' ∧ c ≠ aposChar ∧ c ≠ quoteChar := by
  induction m with
  | nil =>
    intro c hc
    rw [escapeXml_nil] at hc
    cases hc
  | cons a m ih =>
    intro c hc
    rw [escapeXml_cons] at hc
    rcases List.mem_append.mp hc with h | h
    · exact escChar_no_raw_specials a c h
    · exact ih c h

/-- The entity decoder: the spec-side inverse of the escaping. -/
def unescapeXml : List Char → List Char
  | [] => []
  | c :: rest =>
    if c = '&' ∧ rest.take 4 = ['a', 'm', 'p', ';'] then
      '&' :: unescapeXml (rest.drop 4)
    else if c = '&' ∧ rest.take 3 = ['l', 't', ';'] then
      '<' :: unescapeXml (rest.drop 3)
    else if c = '&' ∧ rest.take 3 = ['g', 't', ';'] then
      '>' :: unescapeXml (rest.drop 3)
    else if c = '&' ∧ rest.take 5 = ['a', 'p', 'o', 's', ';'] then
      aposChar :: unescapeXml (rest.drop 5)
    else if c = '&' ∧ rest.take 5 = ['q', 'u', 'o', 't', ';'] then
      quoteChar :: unescapeXml (rest.drop 5)
    else
      c :: unescapeXml rest
termination_by l => l.length
decreasing_by
  all_goals (simp only [List.length_drop, List.length_cons]; omega)

/-- Un-escaping recovers the original message: the escaping is injective and
entity-decoding inverts it. -/
theorem unescapeXml_escapeXml (m : List Char) :
    unescapeXml (escapeXml m) = m := by
  induction m with
  | nil =>
    rw [escapeXml_nil]
    rw [unescapeXml]
  | cons a m ih =>
    rw [escapeXml_cons]
    by_cases h1 : a = '&'
    · subst h1
      rw [show escChar '&' = ['&', 'a', 'm', 'p', ';'] from rfl]
      simp only [List.cons_append, List.nil_append]
      rw [unescapeXml]
      rw [if_pos ⟨rfl, rfl⟩]
      exact congrArg (List.cons '&') ih
    · by_cases h2 : a = '<'
      · subst h2
        rw [show escChar '<' = ['&', 'l', 't', ';'] from rfl]
        simp only [List.cons_append, List.nil_append]
        rw [unescapeXml]
        rw [if_neg (by rintro ⟨-, h⟩; simp [List.take] at h)]
        rw [if_pos ⟨rfl, rfl⟩]
        exact congrArg (List.cons '<') ih
      · by_cases h3 : a = '>'
        · subst h3
          rw [show escChar '>' = ['&', 'g', 't', ';'] from rfl]
          simp only [List.cons_append, List.nil_append]
          rw [unescapeXml]
          rw [if_neg (by rintro ⟨-, h⟩; simp [List.take] at h)]
          rw [if_neg (by rintro ⟨-, h⟩; simp [List.take] at h)]
          rw [if_pos ⟨rfl, rfl⟩]
          exact congrArg (List.cons '>') ih
        · by_cases h4 : a = aposChar
          · subst h4
            rw [show escChar aposChar = ['&', 'a', 'p', 'o', 's', ';'] from rfl]
            simp only [List.cons_append, List.nil_append]
            rw [unescapeXml]
            rw [if_neg (by rintro ⟨-, h⟩; simp [List.take] at h)]
            rw [if_neg (by rintro ⟨-, h⟩; simp [List.take] at h)]
            rw [if_neg (by rintro ⟨-, h⟩; simp [List.take] at h)]
            rw [if_pos ⟨rfl, rfl⟩]
            exact congrArg (List.cons aposChar) ih
          · by_cases h5 : a = quoteChar
            · subst h5
              rw [show escChar quoteChar = ['&', 'q', 'u', 'o', 't', ';'] from rfl]
              simp only [List.cons_append, List.nil_append]
              rw [unescapeXml]
              rw [if_neg (by rintro ⟨-, h⟩; simp [List.take] at h)]
              rw [if_neg (by rintro ⟨-, h⟩; simp [List.take] at h)]
              rw [if_neg (by rintro ⟨-, h⟩; simp [List.take] at h)]
              rw [if_neg (by rintro ⟨-, h⟩; simp [List.take] at h)]
              rw [if_pos ⟨rfl, rfl⟩]
              exact congrArg (List.cons quoteChar) ih
            · rw [show escChar a = [a] from by
                simp [escChar, h1, h2, h3, h4, h5]]
              simp only [List.cons_append, List.nil_append]
              rw [unescapeXml]
              rw [if_neg (by rintro ⟨h, -⟩; exact h1 h)]
              rw [if_neg (by rintro ⟨h, -⟩; exact h1 h)]
              rw [if_neg (by rintro ⟨h, -⟩; exact h1 h)]
              rw [if_neg (by rintro ⟨h, -⟩; exact h1 h)]
              rw [if_neg (by rintro ⟨h, -⟩; exact h1 h)]
              exact congrArg (List.cons a) ih

/-- C5: all three renderers embed the message only through `escapeXml`, which
removes every raw `<`, `>`, `'`, `"` (so the documents stay well-formed) and
is inverted by entity decoding, recovering the original message. -/
theorem C5_renderers_escape (message webhook_base_url : List Char)
    (call_log_id : Nat) :
    unescapeXml (escapeXml message) = message ∧
    (∀ c ∈ escapeXml message, c ≠ '<' ∧ c ≠ '>' ∧ c ≠ aposChar ∧ c ≠ quoteChar) ∧
    generate_error_twiml message = twimlHead ++ escapeXml message ++ errorTail ∧
    generate_hangup_twiml message = twimlHead ++ escapeXml message ++ hangupTail ∧
    generate_continue_twiml webhook_base_url message call_log_id =
      twimlHead ++ escapeXml message ++ continueTail webhook_base_url call_log_id :=
  ⟨unescapeXml_escapeXml message, escapeXml_no_raw_specials message, rfl, rfl, rfl⟩

/-- C5 witness: a message containing all five specials round-trips. -/
theorem C5_renderers_escape_witness :
    unescapeXml (escapeXml ['a', '&', '<', '>', aposChar, quoteChar, 'b']) =
      ['a', '&', '<', '>', aposChar, quoteChar, 'b'] ∧
    ∀ c ∈ escapeXml ['a', '&', '<', '>', aposChar, quoteChar, 'b'],
      c ≠ '<' ∧ c ≠ '>' ∧ c ≠ aposChar ∧ c ≠ quoteChar :=
  ⟨(C5_renderers_escape ['a', '&', '<', '>', aposChar, quoteChar, 'b'] [] 0).1,
   (C5_renderers_escape ['a', '&', '<', '>', aposChar, quoteChar, 'b'] [] 0).2.1⟩

/-! ### C9: the generic-closing branch of the end-by-turns path is unreachable -/

/-- Dropping leading whitespace cannot eat into a nonempty all-non-whitespace
pattern occurring in the list: the pattern (and everything after it) survives. -/
theorem dropWhile_keeps_infix : ∀ (X p Y : List Char), p ≠ [] →
    (∀ c ∈ p, c.isWhitespace = false) →
    ∃ Xd, List.dropWhile Char.isWhitespace (X ++ p ++ Y) = Xd ++ p ++ Y
  | [], p, Y, hp, hw => by
    rcases p with _ | ⟨c, p'⟩
    · exact absurd rfl hp
    · refine ⟨[], ?_⟩
      simp only [List.nil_append, List.cons_append]
      rw [List.dropWhile_cons_of_neg]
      simp only [hw c (by simp), Bool.false_eq_true, not_false_eq_true]
  | x :: X, p, Y, hp, hw => by
    by_cases hx : x.isWhitespace
    · obtain ⟨Xd, hXd⟩ := dropWhile_keeps_infix X p Y hp hw
      refine ⟨Xd, ?_⟩
      rw [List.cons_append, List.cons_append, List.dropWhile_cons_of_pos hx]
      exact hXd
    · refine ⟨x :: X, ?_⟩
      rw [List.cons_append, List.cons_append, List.dropWhile_cons_of_neg hx]

/-- Stripping preserves occurrences of nonempty whitespace-free patterns. -/
theorem hasSubstr_pyStrip (s p : List Char) (hp : p ≠ [])
    (hw : ∀ c ∈ p, c.isWhitespace = false) (h : hasSubstr s p = true) :
    hasSubstr (pyStrip s) p = true := by
  obtain ⟨l, r, hs⟩ := (hasSubstr_iff s p).mp h
  subst hs
  obtain ⟨l1, h1⟩ := dropWhile_keeps_infix l p r hp hw
  unfold pyStrip
  rw [h1]
  have hrev : (l1 ++ p ++ r).reverse = r.reverse ++ p.reverse ++ l1.reverse := by
    simp [List.reverse_append, List.append_assoc]
  rw [hrev]
  have hpr : p.reverse ≠ [] := by simpa using hp
  have hwr : ∀ c ∈ p.reverse, c.isWhitespace = false := fun c hc =>
    hw c (List.mem_reverse.mp hc)
  obtain ⟨l2, h2⟩ := dropWhile_keeps_infix r.reverse p.reverse l1.reverse hpr hwr
  rw [h2]
  apply (hasSubstr_iff _ _).mpr
  exact ⟨l1, l2.reverse, by simp [List.reverse_append, List.append_assoc]⟩

/-- C9: if the keyword termination check rejected the utterance, the utterance
cannot contain `no` or `nothing` (the check already catches those through the
strip), so whenever the end-by-turns branch is reached, the closing line is
always the generated reply followed by the fixed thanks-and-goodbye suffix:
the generic `Understood...` replacement is unreachable. -/
theorem C9_generic_closing_unreachable (speech_result : List Char)
    (turn_count : Nat)
    (h : shouldEndConversation speech_result turn_count = false) :
    (hasSubstr (pyLower speech_result) "no".data ||
      hasSubstr (pyLower speech_result) "nothing".data) = false ∧
    ∀ bot_response : PyVal,
      ending_response_line speech_result bot_response =
        PyVal.fstr bot_response ++ timeSuffix := by
  have hany : ending_keywords.any
      (fun k => hasSubstr (pyStrip (pyLower speech_result)) k) = false := by
    unfold shouldEndConversation at h
    exact (Bool.or_eq_false_iff.mp h).1
  have hno2 := List.any_eq_false.mp hany "no".data (by decide)
  have hnothing2 := List.any_eq_false.mp hany "nothing".data (by decide)
  have hno : hasSubstr (pyLower speech_result) "no".data = false := by
    cases hc : hasSubstr (pyLower speech_result) "no".data
    · rfl
    · exfalso
      have ht := hasSubstr_pyStrip (pyLower speech_result) "no".data
        (by decide) (by decide) hc
      rw [ht] at hno2
      exact absurd hno2 (by decide)
  have hnothing : hasSubstr (pyLower speech_result) "nothing".data = false := by
    cases hc : hasSubstr (pyLower speech_result) "nothing".data
    · rfl
    · exfalso
      have ht := hasSubstr_pyStrip (pyLower speech_result) "nothing".data
        (by decide) (by decide) hc
      rw [ht] at hnothing2
      exact absurd hnothing2 (by decide)
  refine ⟨by rw [hno, hnothing]; rfl, ?_⟩
  intro bot_response
  unfold ending_response_line
  rw [hno, hnothing]
  rfl

/-- C9 witness: for the non-terminating utterance `"tell me more"` the closing
line of the end-by-turns branch is the generated reply plus the suffix. -/
theorem C9_generic_closing_unreachable_witness :
    ending_response_line "tell me more".data (PyVal.str "Ok".data) =
      "Ok".data ++ timeSuffix :=
  (C9_generic_closing_unreachable "tell me more".data 0 (by decide)).2
    (PyVal.str "Ok".data)

end VoiceAgent
